import Mathlib

/-!
# NMEA-0183 sentence decoder: a shallow embedding

This file embeds the NMEA sentence decoder (`gps.py`, `nmea.py`/`run.py`)
into Lean.  Frames are `List Char`; Python exceptions become an error type
returned through `Except`.  Each Python class constructor (`BaseGPS.__init__`,
`GPSGGA.__init__`, ...) becomes a `decode` function from the raw frame to
`Except GPSError` of a record whose fields carry the source's attribute
names; the dispatcher `GPS.getInstance` becomes `getInstance`.
-/

/-- The failure modes of the decoder: `GPSFormatError`/`GPSTypeError` from
`gps.py`, plus Python's built-in `IndexError` raised by out-of-range scalar
list or string indexing. -/
inductive GPSError where
  | formatError (msg : String)
  | typeError (msg : String)
  | indexError
deriving DecidableEq, Repr

/-- Python `frame.split(',')`: split a character list on `','`, keeping empty
fields; the empty string yields one empty field. -/
def splitFields : List Char → List (List Char)
  | [] => [[]]
  | c :: cs =>
    if c = ',' then [] :: splitFields cs
    else
      match splitFields cs with
      | f :: rest => (c :: f) :: rest
      | [] => [[c]]

/-- Python `frame.rpartition('*')[0]`: everything before the last `'*'`,
or the empty string when there is no `'*'`. -/
def rpartBefore (l : List Char) : List Char :=
  ((l.reverse.dropWhile (fun c => c != '*')).drop 1).reverse

/-- Python `frame.rpartition('*')[2]`: everything after the last `'*'`,
or the whole string when there is no `'*'`. -/
def rpartAfter (l : List Char) : List Char :=
  (l.reverse.takeWhile (fun c => c != '*')).reverse

/-- The message of the `GPSFormatError` raised by `BaseGPS.__init__`:
`"Lenght error : {}".format(len(frame))` (sic). -/
def lenErrMsg (frame : List Char) : String :=
  "Lenght error : " ++ toString frame.length

/-- The base record built by `BaseGPS.__init__`: the split field sequence,
the 2-character receiver code and the 3-character sentence-type code. -/
structure BaseGPS where
  data : List (List Char)
  receiver : List Char
  type : List Char
deriving DecidableEq, Repr

/-- `BaseGPS._split`: if the frame contains `'*'`, keep only what precedes
the last `'*'`; then delete every remaining `'*'` and `'$'` and split on
commas. -/
def BaseGPS.split (frame : List Char) : List (List Char) :=
  let f := if '*' ∈ frame then rpartBefore frame else frame
  splitFields (f.filter (fun c => c != '*' && c != '$'))

/-- `BaseGPS.__init__`: `frame[0]` on an empty string raises `IndexError`;
a first character other than `'$'` raises `GPSFormatError`; otherwise the
frame is split and the receiver and type codes are sliced (Python slicing
clamps, so short first fields truncate silently). -/
def BaseGPS.decode (frame : List Char) : Except GPSError BaseGPS :=
  match frame with
  | [] => .error .indexError
  | c :: cs =>
    if c = '$' then
      let d := BaseGPS.split (c :: cs)
      .ok { data := d, receiver := d.headI.take 2, type := (d.headI.drop 2).take 3 }
    else
      .error (.formatError (lenErrMsg (c :: cs)))

/-- The keys of `BaseGPS.FRAME_TYPE`: the six known sentence-type tags. -/
def FRAME_TYPE_KEYS : List (List Char) :=
  ["GGA".data, "GLL".data, "GSA".data, "GSV".data, "VTG".data, "RMC".data]

/-- Python scalar list indexing `l[i]`: `IndexError` when out of range. -/
def lidx (l : List (List Char)) (i : Nat) : Except GPSError (List Char) :=
  match l.get? i with
  | some x => .ok x
  | none => .error .indexError

/-- Python list slicing `l[a:b]` for `0 ≤ a ≤ b`: clamping, never failing. -/
def pySlice (l : List (List Char)) (a b : Nat) : List (List Char) :=
  (l.drop a).take (b - a)

/-- The sentence-type code `BaseGPS.__init__` extracts from a frame
(characters [2,5) of the first split field). -/
def typeOf (frame : List Char) : List Char :=
  ((BaseGPS.split frame).headI.drop 2).take 3

/-- The receiver code `BaseGPS.__init__` extracts from a frame
(characters [0,2) of the first split field). -/
def receiverOf (frame : List Char) : List Char :=
  (BaseGPS.split frame).headI.take 2

/-- The record built by `GPSGGA.__init__`, field names as in the source. -/
structure GPSGGA where
  receiver : List Char
  type : List Char
  time : List Char
  lattitude : List (List Char)
  longitude : List (List Char)
  quality : List Char
  sattelites : List Char
  altitude : List (List Char)
  checksum : List Char
deriving DecidableEq, Repr

/-- `GPSGGA.__init__`: base parse, then the source's type check
(`if self.type not in FRAME_TYPE: if self.type != "GGA": TypeError else
FormatError` — both branches raise, so the rest runs only when the check
passes), then positional field extraction and
`checksum = frame.rpartition('*')[2]`. -/
def GPSGGA.decode (frame : List Char) : Except GPSError GPSGGA :=
  match BaseGPS.decode frame with
  | .error e => .error e
  | .ok b =>
    if b.type ∉ FRAME_TYPE_KEYS then
      if b.type ≠ "GGA".data then .error (.typeError "not GGA type")
      else .error (.formatError (String.mk b.type ++ " type is not support"))
    else
      match lidx b.data 1 with
      | .error e => .error e
      | .ok time =>
        match lidx b.data 6 with
        | .error e => .error e
        | .ok quality =>
          match lidx b.data 7 with
          | .error e => .error e
          | .ok sats =>
            .ok { receiver := b.receiver, type := b.type, time := time,
                  lattitude := pySlice b.data 2 4,
                  longitude := pySlice b.data 4 6,
                  quality := quality, sattelites := sats,
                  altitude := pySlice b.data 8 10,
                  checksum := rpartAfter frame }

/-- The record built by `GPSGLL.__init__`; `data` is the source's reused
attribute holding the final status field. -/
structure GPSGLL where
  receiver : List Char
  type : List Char
  lattitude : List (List Char)
  longitude : List (List Char)
  time : List Char
  data : List Char
deriving DecidableEq, Repr

/-- `GPSGLL.__init__`: its type check additionally requires
`len(self.data) != 7` before raising, then positional extraction. -/
def GPSGLL.decode (frame : List Char) : Except GPSError GPSGLL :=
  match BaseGPS.decode frame with
  | .error e => .error e
  | .ok b =>
    if b.type ∉ FRAME_TYPE_KEYS ∧ b.data.length ≠ 7 then
      if b.type ≠ "GLL".data then .error (.typeError "not GLL type")
      else .error (.formatError (String.mk b.type ++ " type is not support"))
    else
      match lidx b.data 5 with
      | .error e => .error e
      | .ok time =>
        match lidx b.data 6 with
        | .error e => .error e
        | .ok dataf =>
          .ok { receiver := b.receiver, type := b.type,
                lattitude := pySlice b.data 1 3,
                longitude := pySlice b.data 3 5,
                time := time, data := dataf }

/-- The record built by `GPSGSA.__init__`. -/
structure GPSGSA where
  receiver : List Char
  type : List Char
  mode : List Char
  fix : List Char
  satellites : List (List Char)
  pdop : List Char
  hdop : List Char
  vdop : List Char
  checksum : List Char
deriving DecidableEq, Repr

/-- `GPSGSA.__init__`: same type-check shape as GGA, positions 1, 2,
[3,15), 15, 16, 17. -/
def GPSGSA.decode (frame : List Char) : Except GPSError GPSGSA :=
  match BaseGPS.decode frame with
  | .error e => .error e
  | .ok b =>
    if b.type ∉ FRAME_TYPE_KEYS then
      if b.type ≠ "GSA".data then .error (.typeError "not GSA type")
      else .error (.formatError (String.mk b.type ++ " type is not support"))
    else
      match lidx b.data 1 with
      | .error e => .error e
      | .ok mode =>
        match lidx b.data 2 with
        | .error e => .error e
        | .ok fix =>
          match lidx b.data 15 with
          | .error e => .error e
          | .ok pdop =>
            match lidx b.data 16 with
            | .error e => .error e
            | .ok hdop =>
              match lidx b.data 17 with
              | .error e => .error e
              | .ok vdop =>
                .ok { receiver := b.receiver, type := b.type, mode := mode,
                      fix := fix, satellites := pySlice b.data 3 15,
                      pdop := pdop, hdop := hdop, vdop := vdop,
                      checksum := rpartAfter frame }

/-- The record built by `GPSGSV.__init__` (`IDX_SIGN` is declared in the
source but never read). -/
structure GPSGSV where
  receiver : List Char
  type : List Char
  total : List Char
  current : List Char
  satellites : List Char
  first : List Char
  elevation : List Char
  azimuth : List Char
  checksum : List Char
deriving DecidableEq, Repr

/-- `GPSGSV.__init__`: same type-check shape as GGA, positions 1..6. -/
def GPSGSV.decode (frame : List Char) : Except GPSError GPSGSV :=
  match BaseGPS.decode frame with
  | .error e => .error e
  | .ok b =>
    if b.type ∉ FRAME_TYPE_KEYS then
      if b.type ≠ "GSV".data then .error (.typeError "not GSV type")
      else .error (.formatError (String.mk b.type ++ " type is not support"))
    else
      match lidx b.data 1 with
      | .error e => .error e
      | .ok total =>
        match lidx b.data 2 with
        | .error e => .error e
        | .ok current =>
          match lidx b.data 3 with
          | .error e => .error e
          | .ok sats =>
            match lidx b.data 4 with
            | .error e => .error e
            | .ok first =>
              match lidx b.data 5 with
              | .error e => .error e
              | .ok elevation =>
                match lidx b.data 6 with
                | .error e => .error e
                | .ok azimuth =>
                  .ok { receiver := b.receiver, type := b.type,
                        total := total, current := current,
                        satellites := sats, first := first,
                        elevation := elevation, azimuth := azimuth,
                        checksum := rpartAfter frame }

/-- The record built by `GPSVTG.__init__` (slices only, no scalar reads,
no checksum attribute). -/
structure GPSVTG where
  receiver : List Char
  type : List Char
  dtrack : List (List Char)
  mtrack : List (List Char)
  nspeed : List (List Char)
  kspeed : List (List Char)
deriving DecidableEq, Repr

/-- `GPSVTG.__init__`: the source's inner comparison is against
`GPSGGA.TYPE` (a copy-paste slip kept verbatim here), then four slices. -/
def GPSVTG.decode (frame : List Char) : Except GPSError GPSVTG :=
  match BaseGPS.decode frame with
  | .error e => .error e
  | .ok b =>
    if b.type ∉ FRAME_TYPE_KEYS then
      if b.type ≠ "GGA".data then .error (.typeError "not GGA type")
      else .error (.formatError (String.mk b.type ++ " type is not support"))
    else
      .ok { receiver := b.receiver, type := b.type,
            dtrack := pySlice b.data 1 3, mtrack := pySlice b.data 3 5,
            nspeed := pySlice b.data 5 7, kspeed := pySlice b.data 7 9 }

/-- The record built by `GPSRMC.__init__`. -/
structure GPSRMC where
  receiver : List Char
  type : List Char
  hours : List Char
  alert : List Char
  latitude : List (List Char)
  longitude : List (List Char)
  speed : List Char
  track : List Char
  date : List Char
  magnetic : List (List Char)
  checksum : List Char
deriving DecidableEq, Repr

/-- `GPSRMC.__init__`: same type-check shape as GGA, positions 1, 2,
[3,5), [5,7), 7, 8, 9, [10,12) (the source's `print` has no effect on the
returned value and is not modelled). -/
def GPSRMC.decode (frame : List Char) : Except GPSError GPSRMC :=
  match BaseGPS.decode frame with
  | .error e => .error e
  | .ok b =>
    if b.type ∉ FRAME_TYPE_KEYS then
      if b.type ≠ "RMC".data then .error (.typeError "not RMC type")
      else .error (.formatError (String.mk b.type ++ " type is not support"))
    else
      match lidx b.data 1 with
      | .error e => .error e
      | .ok hours =>
        match lidx b.data 2 with
        | .error e => .error e
        | .ok alert =>
          match lidx b.data 7 with
          | .error e => .error e
          | .ok speed =>
            match lidx b.data 8 with
            | .error e => .error e
            | .ok track =>
              match lidx b.data 9 with
              | .error e => .error e
              | .ok date =>
                .ok { receiver := b.receiver, type := b.type,
                      hours := hours, alert := alert,
                      latitude := pySlice b.data 3 5,
                      longitude := pySlice b.data 5 7,
                      speed := speed, track := track, date := date,
                      magnetic := pySlice b.data 10 12,
                      checksum := rpartAfter frame }

/-- A decoded sentence as returned by the dispatcher: one variant per
class of `gps.py` that subclasses `BaseGPS`, the base class included. -/
inductive Record where
  | base (b : BaseGPS)
  | gga (r : GPSGGA)
  | gll (r : GPSGLL)
  | gsa (r : GPSGSA)
  | gsv (r : GPSGSV)
  | vtg (r : GPSVTG)
  | rmc (r : GPSRMC)
deriving DecidableEq, Repr

/-- `GPS.getInstance`: run `BaseGPS` on the frame, then scan the classes of
the module in `inspect.getmembers` order (alphabetical, so `BaseGPS` with
its empty `TYPE` comes first, then GGA, GLL, GSA, GSV, RMC, VTG) and return
an instance of the first subclass of `BaseGPS` whose `TYPE` equals the
extracted code; falling through the loop returns Python's `None`. -/
def getInstance (frame : List Char) : Except GPSError (Option Record) :=
  match BaseGPS.decode frame with
  | .error e => .error e
  | .ok b =>
    if b.type = ([] : List Char) then .ok (some (.base b))
    else if b.type = "GGA".data then
      match GPSGGA.decode frame with
      | .error e => .error e
      | .ok r => .ok (some (.gga r))
    else if b.type = "GLL".data then
      match GPSGLL.decode frame with
      | .error e => .error e
      | .ok r => .ok (some (.gll r))
    else if b.type = "GSA".data then
      match GPSGSA.decode frame with
      | .error e => .error e
      | .ok r => .ok (some (.gsa r))
    else if b.type = "GSV".data then
      match GPSGSV.decode frame with
      | .error e => .error e
      | .ok r => .ok (some (.gsv r))
    else if b.type = "RMC".data then
      match GPSRMC.decode frame with
      | .error e => .error e
      | .ok r => .ok (some (.rmc r))
    else if b.type = "VTG".data then
      match GPSVTG.decode frame with
      | .error e => .error e
      | .ok r => .ok (some (.vtg r))
    else .ok none

/-! ## Helper lemmas -/

/-- Scalar indexing within bounds returns the element. -/
theorem lidx_lt {l : List (List Char)} {i : Nat} (h : i < l.length) :
    lidx l i = .ok (l.getD i []) := by
  simp [lidx, List.getD, List.get?_eq_getElem?, List.getElem?_eq_getElem h]

/-- Scalar indexing out of bounds raises `IndexError`. -/
theorem lidx_ge {l : List (List Char)} {i : Nat} (h : l.length ≤ i) :
    lidx l i = .error .indexError := by
  simp [lidx, List.get?_eq_getElem?, List.getElem?_eq_none h]

/-- `takeWhile (≠ '*')` keeps a star-free list whole. -/
theorem takeWhile_no_star : ∀ l : List Char, '*' ∉ l →
    l.takeWhile (fun c => c != '*') = l := by
  intro l h
  induction l with
  | nil => rfl
  | cons c cs ih =>
    simp only [List.mem_cons, not_or] at h
    simp [List.takeWhile_cons, bne_iff_ne, Ne.symm h.1, ih h.2]

/-- `dropWhile (≠ '*')` lands on the separating star when the prefix is
star-free. -/
theorem dropWhile_star_sep : ∀ l r : List Char, '*' ∉ l →
    (l ++ '*' :: r).dropWhile (fun c => c != '*') = '*' :: r := by
  intro l r h
  induction l with
  | nil => simp [List.dropWhile_cons]
  | cons c cs ih =>
    simp only [List.mem_cons, not_or] at h
    simp [List.dropWhile_cons, bne_iff_ne, Ne.symm h.1, ih h.2]

/-- `rpartition('*')[2]` of a star-free string is the string itself. -/
theorem rpartAfter_no_star {l : List Char} (h : '*' ∉ l) : rpartAfter l = l := by
  unfold rpartAfter
  rw [takeWhile_no_star l.reverse (by simpa using h)]
  exact List.reverse_reverse l

/-- `rpartition('*')[0]` of `body ++ "*" ++ chk` is `body` when the suffix
`chk` contains no star (the separating star is then the last one). -/
theorem rpartBefore_sep {body chk : List Char}
    (hc : '*' ∉ chk) : rpartBefore (body ++ '*' :: chk) = body := by
  unfold rpartBefore
  have hrev : (body ++ '*' :: chk).reverse = chk.reverse ++ '*' :: body.reverse := by
    simp [List.reverse_append]
  rw [hrev, dropWhile_star_sep chk.reverse body.reverse (by simpa using hc)]
  simp

/-- `BaseGPS.__init__` on a frame starting with `'$'` always succeeds and
yields the split fields with the two header slices. -/
theorem baseDecode_dollar (cs : List Char) :
    BaseGPS.decode ('$' :: cs) =
      .ok { data := BaseGPS.split ('$' :: cs),
            receiver := receiverOf ('$' :: cs),
            type := typeOf ('$' :: cs) } := by
  simp [BaseGPS.decode, receiverOf, typeOf]

/-! ## Claims -/

/-- C1 (observed behavior at the claim's failing inputs): the source's type
check is inverted — invoking the GGA decoder on a well-formed sentence of
the known type GLL raises neither `GPSTypeError` nor `GPSFormatError` (the
check passes and positional extraction then dies with `IndexError`), and
invoking it on a sentence with the unknown tag `XYZ` raises `GPSTypeError`,
not the `GPSFormatError` the claim requires. -/
theorem C1_gga_type_check_observed :
    GPSGGA.decode "$GPGLL,4807.038,N,01131.324,E,123519,1".data =
        .error .indexError ∧
    GPSGGA.decode "$GPXYZ,1,2".data =
        .error (.typeError "not GGA type") :=
  ⟨by rfl, by rfl⟩

/-- C3: dispatching
`"$GPGGA,123519,4807.038,N,01131.324,E,1,08,545.4,M,46.9,M,,*42"` yields a
GGA record with time `123519`, latitude `[4807.038, N]`, longitude
`[01131.324, E]`, quality `1`, satellites `08`, altitude `[545.4, M]` and
checksum `42`. -/
theorem C3_dispatch_gga_example :
    getInstance "$GPGGA,123519,4807.038,N,01131.324,E,1,08,545.4,M,46.9,M,,*42".data =
      .ok (some (.gga
        { receiver := "GP".data, type := "GGA".data,
          time := "123519".data,
          lattitude := ["4807.038".data, "N".data],
          longitude := ["01131.324".data, "E".data],
          quality := "1".data, sattelites := "08".data,
          altitude := ["545.4".data, "M".data],
          checksum := "42".data })) := by rfl

/-- C4: splitting is checksum-agnostic — appending `*chk` (the checksum
itself containing no `*`) to a star-free body does not change the split, and
on the concrete pair `"$GPGGA,1,2*42"` / `"$GPGGA,1,2"` both splits are
`["GPGGA","1","2"]`. -/
theorem C4_split_checksum_agnostic :
    (∀ body chk : List Char, '*' ∉ body → '*' ∉ chk →
        BaseGPS.split (body ++ '*' :: chk) = BaseGPS.split body) ∧
    BaseGPS.split "$GPGGA,1,2*42".data = ["GPGGA".data, "1".data, "2".data] ∧
    BaseGPS.split "$GPGGA,1,2".data = ["GPGGA".data, "1".data, "2".data] := by
  refine ⟨?_, by rfl, by rfl⟩
  intro body chk hb hc
  have h1 : '*' ∈ body ++ '*' :: chk := by simp
  simp only [BaseGPS.split]
  rw [if_pos h1, if_neg hb, rpartBefore_sep hc]

/-- Witness for C4: the checksum-agnosticism at body `"$GPGGA,1,2"` and
checksum `"42"`. -/
theorem C4_witness :
    BaseGPS.split ("$GPGGA,1,2".data ++ '*' :: "42".data) =
      BaseGPS.split "$GPGGA,1,2".data :=
  C4_split_checksum_agnostic.1 "$GPGGA,1,2".data "42".data (by decide) (by decide)

/-- C5 counterexample: the first split field of `"$GP"` has 2 characters
(fewer than 5), yet header extraction succeeds with a truncated `receiver`
and an empty `type` instead of failing with `GPSFormatError`. -/
theorem C5_counterexample :
    BaseGPS.decode "$GP".data =
      .ok { data := ["GP".data], receiver := "GP".data, type := [] } := by rfl

/-- C5 (amended): header extraction sets `receiver` to characters [0,2) and
`type` to characters [2,5) of the first field, and on a frame starting with
`'$'` it never fails — a first field shorter than 5 characters silently
truncates the slices. -/
theorem C5_header_extraction (cs : List Char) :
    BaseGPS.decode ('$' :: cs) =
      .ok { data := BaseGPS.split ('$' :: cs),
            receiver := (BaseGPS.split ('$' :: cs)).headI.take 2,
            type := ((BaseGPS.split ('$' :: cs)).headI.drop 2).take 3 } :=
  baseDecode_dollar cs

/-- C7 counterexample: the empty string does not begin with `'$'`, yet the
Splitter fails with `IndexError` (Python's `frame[0]` on an empty string),
not `GPSFormatError`; the dispatcher propagates the same fault. -/
theorem C7_counterexample :
    BaseGPS.decode "".data = .error .indexError ∧
    getInstance "".data = .error .indexError :=
  ⟨by rfl, by rfl⟩

/-- C7 (amended): every nonempty string whose first character is not `'$'`
makes the Splitter — and hence every type-specific decoder and the
dispatcher — fail with `GPSFormatError`. -/
theorem C7_non_dollar_format_error (c : Char) (cs : List Char) (h : c ≠ '$') :
    BaseGPS.decode (c :: cs) = .error (.formatError (lenErrMsg (c :: cs))) ∧
    GPSGGA.decode (c :: cs) = .error (.formatError (lenErrMsg (c :: cs))) ∧
    GPSGLL.decode (c :: cs) = .error (.formatError (lenErrMsg (c :: cs))) ∧
    GPSGSA.decode (c :: cs) = .error (.formatError (lenErrMsg (c :: cs))) ∧
    GPSGSV.decode (c :: cs) = .error (.formatError (lenErrMsg (c :: cs))) ∧
    GPSVTG.decode (c :: cs) = .error (.formatError (lenErrMsg (c :: cs))) ∧
    GPSRMC.decode (c :: cs) = .error (.formatError (lenErrMsg (c :: cs))) ∧
    getInstance (c :: cs) = .error (.formatError (lenErrMsg (c :: cs))) := by
  have hb : BaseGPS.decode (c :: cs) =
      .error (.formatError (lenErrMsg (c :: cs))) := by
    simp [BaseGPS.decode, h]
  refine ⟨hb, ?_, ?_, ?_, ?_, ?_, ?_, ?_⟩
  · simp [GPSGGA.decode, hb]
  · simp [GPSGLL.decode, hb]
  · simp [GPSGSA.decode, hb]
  · simp [GPSGSV.decode, hb]
  · simp [GPSVTG.decode, hb]
  · simp [GPSRMC.decode, hb]
  · simp [getInstance, hb]

/-- Witness for C7 at the concrete non-`'$'` string `"X"`. -/
theorem C7_witness :
    BaseGPS.decode ('X' :: []) = .error (.formatError (lenErrMsg ('X' :: []))) :=
  (C7_non_dollar_format_error 'X' [] (by decide)).1

/-- C2 counterexample: `"$LC"` starts with `'$'` and its extracted
sentence-type code is `""`, which is not one of the six registered tags, yet
the dispatcher returns a base record (because `BaseGPS` itself, with its
empty `TYPE`, is scanned by the dispatch loop), not the empty result. -/
theorem C2_counterexample :
    getInstance "$LC".data =
      .ok (some (.base
        { data := ["LC".data], receiver := "LC".data, type := [] })) := by rfl

/-- C2 (amended): for every raw string starting with `'$'` whose extracted
sentence-type code is nonempty and not one of the six registered tags, the
dispatcher returns the empty result (`none`), not an error. -/
theorem C2_dispatch_unknown_none (cs : List Char)
    (h1 : typeOf ('$' :: cs) ≠ [])
    (h2 : typeOf ('$' :: cs) ∉ FRAME_TYPE_KEYS) :
    getInstance ('$' :: cs) = .ok none := by
  simp only [FRAME_TYPE_KEYS, List.mem_cons, List.not_mem_nil, or_false,
    not_or] at h2
  obtain ⟨hGGA, hGLL, hGSA, hGSV, hVTG, hRMC⟩ := h2
  simp [getInstance, baseDecode_dollar, h1, hGGA, hGLL, hGSA, hGSV, hVTG, hRMC]

/-- Witness for C2 at the concrete unknown-type sentence `"$GPXYZ,1"`. -/
theorem C2_witness : getInstance ('$' :: "GPXYZ,1".data) = .ok none :=
  C2_dispatch_unknown_none "GPXYZ,1".data (by decide) (by decide)

/-- C9: for every raw string starting with `'$'` whose first split field has
at most 2 characters, the extracted type code is empty, it matches
`BaseGPS.TYPE`, and the dispatcher returns the bare base record carrying the
(possibly truncated) receiver and the empty sentence type — not `none`. -/
theorem C9_dispatch_short_first_field (cs : List Char)
    (h : (BaseGPS.split ('$' :: cs)).headI.length ≤ 2) :
    getInstance ('$' :: cs) =
      .ok (some (.base
        { data := BaseGPS.split ('$' :: cs),
          receiver := receiverOf ('$' :: cs), type := [] })) := by
  have ht : typeOf ('$' :: cs) = [] := by
    unfold typeOf
    rw [List.drop_eq_nil_of_le h, List.take_nil]
  simp [getInstance, baseDecode_dollar, ht]

/-- Witness for C9 at the concrete short sentence `"$GP"`. -/
theorem C9_witness :
    getInstance ('$' :: "GP".data) =
      .ok (some (.base
        { data := BaseGPS.split ('$' :: "GP".data),
          receiver := receiverOf ('$' :: "GP".data), type := [] })) :=
  C9_dispatch_short_first_field "GP".data (by decide)

/-- C6 counterexample: `"$GPGGA,1,2,3,4,5,6"` matches the GGA tag but splits
into only 7 fields, fewer than GGA's maximum required position, and decoding
fails with `IndexError` (the propagated host index fault), not the
`GPSFormatError` the claim requires. -/
theorem C6_counterexample :
    GPSGGA.decode "$GPGGA,1,2,3,4,5,6".data = .error .indexError := by rfl

/-- C6 (amended): when the sentence-type code matches the GGA tag but the
field sequence has fewer than 8 fields (position 7, `IDX_SAT`, is GGA's last
scalar read), decoding fails with the propagated `IndexError`, not with
`GPSFormatError`. -/
theorem C6_gga_truncated_index_error (cs : List Char)
    (h1 : typeOf ('$' :: cs) = "GGA".data)
    (h2 : (BaseGPS.split ('$' :: cs)).length ≤ 7) :
    GPSGGA.decode ('$' :: cs) = .error .indexError := by
  have hmem : typeOf ('$' :: cs) ∈ FRAME_TYPE_KEYS := by
    rw [h1]; simp [FRAME_TYPE_KEYS]
  simp only [GPSGGA.decode, baseDecode_dollar]
  rw [if_neg (not_not_intro hmem)]
  rcases Nat.lt_or_ge (BaseGPS.split ('$' :: cs)).length 2 with hl | hl
  · have e1 : lidx (BaseGPS.split ('$' :: cs)) 1 = .error .indexError :=
      lidx_ge (by omega)
    simp [e1]
  · rcases Nat.lt_or_ge (BaseGPS.split ('$' :: cs)).length 7 with hl7 | hl7
    · have e1 : lidx (BaseGPS.split ('$' :: cs)) 1 =
          .ok ((BaseGPS.split ('$' :: cs)).getD 1 []) := lidx_lt (by omega)
      have e6 : lidx (BaseGPS.split ('$' :: cs)) 6 = .error .indexError :=
        lidx_ge (by omega)
      simp [e1, e6]
    · have e1 : lidx (BaseGPS.split ('$' :: cs)) 1 =
          .ok ((BaseGPS.split ('$' :: cs)).getD 1 []) := lidx_lt (by omega)
      have e6 : lidx (BaseGPS.split ('$' :: cs)) 6 =
          .ok ((BaseGPS.split ('$' :: cs)).getD 6 []) := lidx_lt (by omega)
      have e7 : lidx (BaseGPS.split ('$' :: cs)) 7 = .error .indexError :=
        lidx_ge (by omega)
      simp [e1, e6, e7]

/-- Witness for C6 (amended) at the concrete truncated sentence
`"$GPGGA,1"`. -/
theorem C6_witness :
    GPSGGA.decode ('$' :: "GPGGA,1".data) = .error .indexError :=
  C6_gga_truncated_index_error "GPGGA,1".data (by decide) (by decide)

/-- C10: a sentence whose extracted type code is unknown but whose split
field sequence has exactly 7 fields passes the GLL guard (the guard also
requires `len != 7`) and is decoded positionally as a GLL sentence. -/
theorem C10_gll_unknown_seven_fields (cs : List Char)
    (h1 : typeOf ('$' :: cs) ∉ FRAME_TYPE_KEYS)
    (h2 : (BaseGPS.split ('$' :: cs)).length = 7) :
    GPSGLL.decode ('$' :: cs) =
      .ok { receiver := receiverOf ('$' :: cs), type := typeOf ('$' :: cs),
            lattitude := pySlice (BaseGPS.split ('$' :: cs)) 1 3,
            longitude := pySlice (BaseGPS.split ('$' :: cs)) 3 5,
            time := (BaseGPS.split ('$' :: cs)).getD 5 [],
            data := (BaseGPS.split ('$' :: cs)).getD 6 [] } := by
  have e5 : lidx (BaseGPS.split ('$' :: cs)) 5 =
      .ok ((BaseGPS.split ('$' :: cs)).getD 5 []) := lidx_lt (by omega)
  have e6 : lidx (BaseGPS.split ('$' :: cs)) 6 =
      .ok ((BaseGPS.split ('$' :: cs)).getD 6 []) := lidx_lt (by omega)
  simp only [GPSGLL.decode, baseDecode_dollar]
  rw [if_neg (by simp [h2])]
  simp [e5, e6]

/-- Witness for C10 at the concrete unknown-type 7-field sentence
`"$ABCDE,1,2,3,4,5,6"`. -/
theorem C10_witness :
    GPSGLL.decode ('$' :: "ABCDE,1,2,3,4,5,6".data) =
      .ok { receiver := receiverOf ('$' :: "ABCDE,1,2,3,4,5,6".data),
            type := typeOf ('$' :: "ABCDE,1,2,3,4,5,6".data),
            lattitude := pySlice (BaseGPS.split ('$' :: "ABCDE,1,2,3,4,5,6".data)) 1 3,
            longitude := pySlice (BaseGPS.split ('$' :: "ABCDE,1,2,3,4,5,6".data)) 3 5,
            time := (BaseGPS.split ('$' :: "ABCDE,1,2,3,4,5,6".data)).getD 5 [],
            data := (BaseGPS.split ('$' :: "ABCDE,1,2,3,4,5,6".data)).getD 6 [] } :=
  C10_gll_unknown_seven_fields "ABCDE,1,2,3,4,5,6".data (by decide) (by decide)

/-- C8: Python's `rpartition` returns the whole string as its third
component when the separator is absent, so for every raw sentence without a
`'*'` that the GGA, GSA, GSV or RMC decoder accepts, the record's
`checksum` attribute is the entire raw sentence. -/
theorem C8_checksum_no_star (frame : List Char) (h : '*' ∉ frame) :
    (∀ r : GPSGGA, GPSGGA.decode frame = .ok r → r.checksum = frame) ∧
    (∀ r : GPSGSA, GPSGSA.decode frame = .ok r → r.checksum = frame) ∧
    (∀ r : GPSGSV, GPSGSV.decode frame = .ok r → r.checksum = frame) ∧
    (∀ r : GPSRMC, GPSRMC.decode frame = .ok r → r.checksum = frame) := by
  refine ⟨?_, ?_, ?_, ?_⟩ <;> intro r hr
  · unfold GPSGGA.decode at hr
    repeat' split at hr
    all_goals try (rw [Except.ok.injEq] at hr; subst hr; exact rpartAfter_no_star h)
    all_goals simp at hr
  · unfold GPSGSA.decode at hr
    repeat' split at hr
    all_goals try (rw [Except.ok.injEq] at hr; subst hr; exact rpartAfter_no_star h)
    all_goals simp at hr
  · unfold GPSGSV.decode at hr
    repeat' split at hr
    all_goals try (rw [Except.ok.injEq] at hr; subst hr; exact rpartAfter_no_star h)
    all_goals simp at hr
  · unfold GPSRMC.decode at hr
    repeat' split at hr
    all_goals try (rw [Except.ok.injEq] at hr; subst hr; exact rpartAfter_no_star h)
    all_goals simp at hr

/-- Witness for C8 at a concrete star-free GGA sentence that decodes
successfully: its `checksum` attribute is the whole sentence. -/
theorem C8_witness :
    (GPSGGA.mk "GP".data "GGA".data "123519".data
        ["4807.038".data, "N".data] ["01131.324".data, "E".data]
        "1".data "08".data ["545.4".data, "M".data]
        "$GPGGA,123519,4807.038,N,01131.324,E,1,08,545.4,M,46.9,M,,".data).checksum =
      "$GPGGA,123519,4807.038,N,01131.324,E,1,08,545.4,M,46.9,M,,".data :=
  (C8_checksum_no_star
      "$GPGGA,123519,4807.038,N,01131.324,E,1,08,545.4,M,46.9,M,,".data
      (by decide)).1 _ (by rfl)
